import Mathlib

/-!
Shallow embedding of the injury-risk scoring engine of `streamlit_app.py`:
the rule-based risk scorer `compute_injury_risk`, the recommendation
policy `prevention_recommendation`, the dashboard color classifier
`risk_color`, and the driver explainer described by the specification.
Numeric metrics are modelled as exact rationals.
-/

namespace InjuryApp

/-- Risk scorer, embedded from `compute_injury_risk` (src lines 24-67):
sequential accumulation of additive contributions, a congestion addend,
a return-to-play multiplier, and a final saturating clamp at 1. -/
def compute_injury_risk (acwr fatigue_z soreness_z high_speed_distance
    accelerations decelerations : ℚ)
    (match_congestion return_to_play : Bool) : ℚ :=
  let risk : ℚ := 0.0
  let risk := if acwr > 1.6 then risk + 0.40
    else if acwr > 1.3 then risk + 0.25
    else if acwr < 0.8 then risk + 0.10
    else risk
  let risk := risk + max 0 fatigue_z * 0.12
  let risk := risk + max 0 soreness_z * 0.15
  let risk := if high_speed_distance > 1200 then risk + 0.20
    else if high_speed_distance > 800 then risk + 0.10
    else risk
  let risk := if accelerations + decelerations > 140 then risk + 0.15
    else if accelerations + decelerations > 100 then risk + 0.08
    else risk
  let risk := if match_congestion then risk + 0.15 else risk
  let risk := if return_to_play then risk * 1.25 else risk
  min risk 1.0

/-- Recommendation policy, embedded from `prevention_recommendation`
(src lines 72-80): first match from the highest threshold down. -/
def prevention_recommendation (risk : ℚ) : String :=
  if risk ≥ 0.75 then "🚨 HIGH RISK – Medical screening + reduce load 40%"
  else if risk ≥ 0.55 then "⚠️ MODERATE RISK – Modified training, limit HSR"
  else if risk ≥ 0.35 then "🟡 MONITOR – Recovery emphasis"
  else "🟢 LOW RISK – Full training allowed"

/-- Dashboard color classifier, embedded from `risk_color`
(src lines 159-167); its argument is a risk percentage. -/
def risk_color (val : ℚ) : String :=
  if val ≥ 75 then "background-color:#ff4d4d"
  else if val ≥ 55 then "background-color:#ffa500"
  else if val ≥ 35 then "background-color:#fff3cd"
  else "background-color:#d4edda"

/-- The four ordered advisory bands of the recommendation policy. -/
inductive Band
  | HIGH
  | MODERATE
  | MONITOR
  | LOW
deriving DecidableEq

/-- Advisory text attached to each band, taken verbatim from the
return values of `prevention_recommendation`. -/
def advisory : Band → String
  | Band.HIGH => "🚨 HIGH RISK – Medical screening + reduce load 40%"
  | Band.MODERATE => "⚠️ MODERATE RISK – Modified training, limit HSR"
  | Band.MONITOR => "🟡 MONITOR – Recovery emphasis"
  | Band.LOW => "🟢 LOW RISK – Full training allowed"

/-- Color string used by `risk_color` for each band. -/
def colorOf : Band → String
  | Band.HIGH => "background-color:#ff4d4d"
  | Band.MODERATE => "background-color:#ffa500"
  | Band.MONITOR => "background-color:#fff3cd"
  | Band.LOW => "background-color:#d4edda"

/-- ACWR tier contribution (src lines 37-42). -/
def acwrPts (acwr : ℚ) : ℚ :=
  if acwr > 1.6 then 0.40 else if acwr > 1.3 then 0.25
  else if acwr < 0.8 then 0.10 else 0

/-- Fatigue contribution (src line 45). -/
def fatiguePts (z : ℚ) : ℚ := max 0 z * 0.12

/-- Soreness contribution (src line 46). -/
def sorenessPts (z : ℚ) : ℚ := max 0 z * 0.15

/-- High-speed-distance tier contribution (src lines 49-52). -/
def hsrPts (d : ℚ) : ℚ :=
  if d > 1200 then 0.20 else if d > 800 then 0.10 else 0

/-- Combined acceleration and deceleration tier contribution, as a
function of the total count (src lines 54-57). -/
def accelPts (total : ℚ) : ℚ :=
  if total > 140 then 0.15 else if total > 100 then 0.08 else 0

/-- Match-congestion addend (src lines 60-61). -/
def congestionPts (b : Bool) : ℚ := if b then 0.15 else 0

/-- Accumulated sum of steps 1-6 of the scorer, before the
return-to-play multiplier and the clamp. -/
def riskBase (acwr fatigue_z soreness_z high_speed_distance
    accelerations decelerations : ℚ) (match_congestion : Bool) : ℚ :=
  acwrPts acwr + fatiguePts fatigue_z + sorenessPts soreness_z +
    hsrPts high_speed_distance + accelPts (accelerations + decelerations) +
    congestionPts match_congestion

/-- Driver explainer. Modelled from the spec: section 4.3 describes a
driver-explainer operation `explain` that has no counterpart in the
source file; the thresholds, labels and fixed evaluation order below
follow the spec text verbatim. -/
def explain (acwr fatigue_z soreness_z high_speed_distance
    accelerations decelerations : ℚ) : List String :=
  (if acwr > 1.3 then ["acute workload spike"] else []) ++
  (if fatigue_z > 1 then ["elevated fatigue"] else []) ++
  (if soreness_z > 1 then ["increased muscle soreness"] else []) ++
  (if high_speed_distance > 800 then ["high-speed running exposure"] else []) ++
  (if accelerations + decelerations > 120 then ["high neuromuscular load"] else [])

set_option maxHeartbeats 1000000 in
/-- The scorer decomposes into the step 1-6 sum, the optional 1.25
multiplier, and the saturating clamp. -/
theorem compute_injury_risk_eq (acwr f s d a de : ℚ) (mc rtp : Bool) :
    compute_injury_risk acwr f s d a de mc rtp =
      min ((if rtp then (1.25 : ℚ) else 1) * riskBase acwr f s d a de mc) 1 := by
  have h1 : (1.0 : ℚ) = 1 := by norm_num
  cases mc <;> cases rtp <;>
    simp only [compute_injury_risk, riskBase, acwrPts, fatiguePts, sorenessPts,
      hsrPts, accelPts, congestionPts, Bool.false_eq_true, if_false, if_true,
      ite_true, ite_false, h1] <;>
    split_ifs <;>
    (congr 1) <;> ring

theorem acwrPts_nonneg (x : ℚ) : 0 ≤ acwrPts x := by
  unfold acwrPts; split_ifs <;> norm_num

theorem fatiguePts_nonneg (z : ℚ) : 0 ≤ fatiguePts z :=
  mul_nonneg (le_max_left 0 z) (by norm_num)

theorem sorenessPts_nonneg (z : ℚ) : 0 ≤ sorenessPts z :=
  mul_nonneg (le_max_left 0 z) (by norm_num)

theorem hsrPts_nonneg (d : ℚ) : 0 ≤ hsrPts d := by
  unfold hsrPts; split_ifs <;> norm_num

theorem accelPts_nonneg (t : ℚ) : 0 ≤ accelPts t := by
  unfold accelPts; split_ifs <;> norm_num

theorem congestionPts_nonneg (b : Bool) : 0 ≤ congestionPts b := by
  cases b <;> norm_num [congestionPts]

theorem riskBase_nonneg (acwr f s d a de : ℚ) (mc : Bool) :
    0 ≤ riskBase acwr f s d a de mc := by
  unfold riskBase
  have h1 := acwrPts_nonneg acwr
  have h2 := fatiguePts_nonneg f
  have h3 := sorenessPts_nonneg s
  have h4 := hsrPts_nonneg d
  have h5 := accelPts_nonneg (a + de)
  have h6 := congestionPts_nonneg mc
  linarith

theorem rtpMult_nonneg (rtp : Bool) : 0 ≤ (if rtp then (1.25 : ℚ) else 1) := by
  cases rtp <;> norm_num

theorem fatiguePts_mono {z1 z2 : ℚ} (h : z1 ≤ z2) : fatiguePts z1 ≤ fatiguePts z2 :=
  mul_le_mul_of_nonneg_right (max_le_max le_rfl h) (by norm_num)

theorem sorenessPts_mono {z1 z2 : ℚ} (h : z1 ≤ z2) : sorenessPts z1 ≤ sorenessPts z2 :=
  mul_le_mul_of_nonneg_right (max_le_max le_rfl h) (by norm_num)

theorem hsrPts_mono {d1 d2 : ℚ} (h : d1 ≤ d2) : hsrPts d1 ≤ hsrPts d2 := by
  unfold hsrPts; split_ifs <;> linarith

theorem accelPts_mono {t1 t2 : ℚ} (h : t1 ≤ t2) : accelPts t1 ≤ accelPts t2 := by
  unfold accelPts; split_ifs <;> linarith

/-- C1: for every input metrics tuple, the value returned by
`compute_injury_risk` lies in the interval from 0 to 1: every additive
contribution is zero or positive and the final value is the accumulated
sum clamped by the minimum with 1. -/
theorem C1_score_bounded (acwr f s d a de : ℚ) (mc rtp : Bool) :
    0 ≤ compute_injury_risk acwr f s d a de mc rtp ∧
      compute_injury_risk acwr f s d a de mc rtp ≤ 1 := by
  rw [compute_injury_risk_eq]
  refine ⟨le_min (mul_nonneg (rtpMult_nonneg rtp) (riskBase_nonneg acwr f s d a de mc))
    (by norm_num), min_le_right _ _⟩

/-- C2: the driver explainer returns the labels of the five looser
thresholds checked in fixed order against the raw metrics, independently
of the computed risk; in particular an athlete with ACWR 1.4 and all
other metrics zero gets risk 0.25 and the LOW advisory, yet a non-empty
driver list. -/
theorem C2_driver_explainer :
    (∀ acwr f s d a de : ℚ,
      ("acute workload spike" ∈ explain acwr f s d a de ↔ acwr > 1.3) ∧
      ("elevated fatigue" ∈ explain acwr f s d a de ↔ f > 1) ∧
      ("increased muscle soreness" ∈ explain acwr f s d a de ↔ s > 1) ∧
      ("high-speed running exposure" ∈ explain acwr f s d a de ↔ d > 800) ∧
      ("high neuromuscular load" ∈ explain acwr f s d a de ↔ a + de > 120) ∧
      List.Sublist (explain acwr f s d a de)
        ["acute workload spike", "elevated fatigue", "increased muscle soreness",
         "high-speed running exposure", "high neuromuscular load"]) ∧
    explain 1.4 0 0 0 0 0 = ["acute workload spike"] ∧
    compute_injury_risk 1.4 0 0 0 0 0 false false = 0.25 ∧
    prevention_recommendation 0.25 = advisory Band.LOW := by
  refine ⟨fun acwr f s d a de => ?_, ?_, ?_, ?_⟩
  · unfold explain
    refine ⟨?_, ?_, ?_, ?_, ?_, ?_⟩ <;> split_ifs <;> simp_all <;> decide
  · norm_num [explain]
  · norm_num [compute_injury_risk, max_def]
  · norm_num [prevention_recommendation, advisory]

/-- C4: the recommendation policy maps risk to a band by first-match
evaluation from the highest threshold down with inclusive lower
boundaries (0.75 for HIGH, 0.55 for MODERATE, 0.35 for MONITOR, else
LOW), each band paired with a distinct advisory text; in particular 0.80
and 0.75 give HIGH while 0.749999 gives MODERATE. -/
theorem C4_recommendation_policy :
    (∀ r : ℚ,
      (0.75 ≤ r → prevention_recommendation r = advisory Band.HIGH) ∧
      (0.55 ≤ r → r < 0.75 → prevention_recommendation r = advisory Band.MODERATE) ∧
      (0.35 ≤ r → r < 0.55 → prevention_recommendation r = advisory Band.MONITOR) ∧
      (r < 0.35 → prevention_recommendation r = advisory Band.LOW)) ∧
    prevention_recommendation 0.80 = advisory Band.HIGH ∧
    prevention_recommendation 0.75 = advisory Band.HIGH ∧
    prevention_recommendation 0.749999 = advisory Band.MODERATE ∧
    advisory Band.HIGH ≠ advisory Band.MODERATE ∧
    advisory Band.HIGH ≠ advisory Band.MONITOR ∧
    advisory Band.HIGH ≠ advisory Band.LOW ∧
    advisory Band.MODERATE ≠ advisory Band.MONITOR ∧
    advisory Band.MODERATE ≠ advisory Band.LOW ∧
    advisory Band.MONITOR ≠ advisory Band.LOW := by
  refine ⟨fun r => ?_, ?_, ?_, ?_, ?_, ?_, ?_, ?_, ?_, ?_⟩
  · unfold prevention_recommendation advisory
    refine ⟨fun h => ?_, fun h h2 => ?_, fun h h2 => ?_, fun h => ?_⟩ <;>
      split_ifs <;> first | rfl | linarith
  · norm_num [prevention_recommendation, advisory]
  · norm_num [prevention_recommendation, advisory]
  · norm_num [prevention_recommendation, advisory]
  all_goals decide

/-- C4 witness: the four bands at the concrete risks 0.9, 0.6, 0.4, 0.2. -/
theorem C4_recommendation_policy_witness :
    prevention_recommendation 0.9 = advisory Band.HIGH ∧
    prevention_recommendation 0.6 = advisory Band.MODERATE ∧
    prevention_recommendation 0.4 = advisory Band.MONITOR ∧
    prevention_recommendation 0.2 = advisory Band.LOW :=
  ⟨(C4_recommendation_policy.1 0.9).1 (by norm_num),
   (C4_recommendation_policy.1 0.6).2.1 (by norm_num) (by norm_num),
   (C4_recommendation_policy.1 0.4).2.2.1 (by norm_num) (by norm_num),
   (C4_recommendation_policy.1 0.2).2.2.2 (by norm_num)⟩

/-- C5: holding the other inputs fixed, the scorer is monotonically
non-decreasing in fatigue, soreness, high-speed distance and the sum of
accelerations and decelerations (stated jointly: raising any of them
together never lowers the score). -/
theorem C5_score_monotone (acwr f1 s1 d1 a1 de1 f2 s2 d2 a2 de2 : ℚ) (mc rtp : Bool)
    (hf : f1 ≤ f2) (hs : s1 ≤ s2) (hd : d1 ≤ d2) (ha : a1 + de1 ≤ a2 + de2) :
    compute_injury_risk acwr f1 s1 d1 a1 de1 mc rtp ≤
      compute_injury_risk acwr f2 s2 d2 a2 de2 mc rtp := by
  rw [compute_injury_risk_eq, compute_injury_risk_eq]
  refine min_le_min (mul_le_mul_of_nonneg_left ?_ (rtpMult_nonneg rtp)) le_rfl
  unfold riskBase
  exact add_le_add (add_le_add (add_le_add (add_le_add (add_le_add le_rfl
    (fatiguePts_mono hf)) (sorenessPts_mono hs)) (hsrPts_mono hd))
    (accelPts_mono ha)) le_rfl

/-- C5 witness: raising fatigue, soreness, distance and the
acceleration-deceleration total at once never lowers the score. -/
theorem C5_score_monotone_witness :
    compute_injury_risk 1 0 0 0 0 0 false false ≤
      compute_injury_risk 1 1 1 900 50 60 false false :=
  C5_score_monotone 1 0 0 0 0 0 1 1 900 50 60 false false
    (by norm_num) (by norm_num) (by norm_num) (by norm_num)

/-- C6: with return-to-play set, the scorer multiplies the whole
accumulated sum of steps 1-6 (congestion addend included) by 1.25 before
the clamp; concretely, ACWR 1.7 alone with congestion gives 0.55, and
0.6875 once return-to-play is set. -/
theorem C6_rtp_multiplier :
    (∀ (acwr f s d a de : ℚ) (mc : Bool),
      compute_injury_risk acwr f s d a de mc true =
        min (1.25 * riskBase acwr f s d a de mc) 1) ∧
    compute_injury_risk 1.7 0 0 0 0 0 true false = 0.55 ∧
    compute_injury_risk 1.7 0 0 0 0 0 true true = 0.6875 := by
  refine ⟨fun acwr f s d a de mc => ?_, ?_, ?_⟩
  · rw [compute_injury_risk_eq]; norm_num
  · norm_num [compute_injury_risk, max_def]
  · norm_num [compute_injury_risk, max_def]

/-- C7: the spec's worked example: metrics 1.15, 1.0, 0.8, 900, 60, 65
with both flags off score 0.42, whose recommendation is the MONITOR
band. -/
theorem C7_worked_example :
    compute_injury_risk 1.15 1.0 0.8 900 60 65 false false = 0.42 ∧
    prevention_recommendation 0.42 = advisory Band.MONITOR := by
  constructor
  · norm_num [compute_injury_risk, max_def]
  · norm_num [prevention_recommendation, advisory]

/-- C8: the recommendation policy is total and deterministic on all
rationals: every input yields one of the four advisories, every risk
below 0.35 (negatives included) gives LOW, and every risk at or above
0.75 (values above 1 included) gives HIGH. -/
theorem C8_policy_total (r : ℚ) :
    (prevention_recommendation r = advisory Band.HIGH ∨
     prevention_recommendation r = advisory Band.MODERATE ∨
     prevention_recommendation r = advisory Band.MONITOR ∨
     prevention_recommendation r = advisory Band.LOW) ∧
    (r < 0.35 → prevention_recommendation r = advisory Band.LOW) ∧
    (0.75 ≤ r → prevention_recommendation r = advisory Band.HIGH) := by
  unfold prevention_recommendation advisory
  refine ⟨?_, fun h => ?_, fun h => ?_⟩
  · split_ifs <;> simp
  · split_ifs <;> first | rfl | linarith
  · split_ifs <;> first | rfl | linarith

/-- C8 witness: the out-of-range risks -1 and 2 get the LOW and HIGH
advisories. -/
theorem C8_policy_total_witness :
    prevention_recommendation (-1) = advisory Band.LOW ∧
    prevention_recommendation 2 = advisory Band.HIGH :=
  ⟨(C8_policy_total (-1)).2.1 (by norm_num), (C8_policy_total 2).2.2 (by norm_num)⟩

/-- C9: on risks between 0 and 1, the dashboard color of the risk
percentage and the advisory of the risk pick the same band: the color
equals a band's color exactly when the recommendation equals that band's
advisory. -/
theorem C9_color_band_agreement (r : ℚ) (h0 : 0 ≤ r) (h1 : r ≤ 1) :
    (risk_color (r * 100) = colorOf Band.HIGH ↔
      prevention_recommendation r = advisory Band.HIGH) ∧
    (risk_color (r * 100) = colorOf Band.MODERATE ↔
      prevention_recommendation r = advisory Band.MODERATE) ∧
    (risk_color (r * 100) = colorOf Band.MONITOR ↔
      prevention_recommendation r = advisory Band.MONITOR) ∧
    (risk_color (r * 100) = colorOf Band.LOW ↔
      prevention_recommendation r = advisory Band.LOW) := by
  have c1 : (r * 100 ≥ 75) ↔ (r ≥ 0.75) := by constructor <;> intro h <;> linarith
  have c2 : (r * 100 ≥ 55) ↔ (r ≥ 0.55) := by constructor <;> intro h <;> linarith
  have c3 : (r * 100 ≥ 35) ↔ (r ≥ 0.35) := by constructor <;> intro h <;> linarith
  unfold risk_color prevention_recommendation colorOf advisory
  simp only [c1, c2, c3]
  split_ifs <;> simp_all

/-- C9 witness: at risk 0.5, the color and the advisory agree on each
band. -/
theorem C9_color_band_agreement_witness :
    (risk_color (0.5 * 100) = colorOf Band.HIGH ↔
      prevention_recommendation 0.5 = advisory Band.HIGH) ∧
    (risk_color (0.5 * 100) = colorOf Band.MODERATE ↔
      prevention_recommendation 0.5 = advisory Band.MODERATE) ∧
    (risk_color (0.5 * 100) = colorOf Band.MONITOR ↔
      prevention_recommendation 0.5 = advisory Band.MONITOR) ∧
    (risk_color (0.5 * 100) = colorOf Band.LOW ↔
      prevention_recommendation 0.5 = advisory Band.LOW) :=
  C9_color_band_agreement 0.5 (by norm_num) (by norm_num)

/-- C10: the scorer is monotonically non-decreasing in each boolean
flag: setting match congestion never lowers the score, and setting
return to play never lowers it either, because the accumulated sum is
non-negative. -/
theorem C10_flags_monotone (acwr f s d a de : ℚ) (mc rtp : Bool) :
    compute_injury_risk acwr f s d a de false rtp ≤
      compute_injury_risk acwr f s d a de true rtp ∧
    compute_injury_risk acwr f s d a de mc false ≤
      compute_injury_risk acwr f s d a de mc true := by
  constructor
  · rw [compute_injury_risk_eq, compute_injury_risk_eq]
    refine min_le_min (mul_le_mul_of_nonneg_left ?_ (rtpMult_nonneg rtp)) le_rfl
    unfold riskBase congestionPts
    simp only [Bool.false_eq_true, if_false, if_true, ite_true, ite_false]
    have := acwrPts_nonneg acwr
    linarith
  · rw [compute_injury_risk_eq, compute_injury_risk_eq]
    refine min_le_min ?_ le_rfl
    have hb := riskBase_nonneg acwr f s d a de mc
    simp only [Bool.false_eq_true, if_false, if_true, ite_true, ite_false]
    linarith

end InjuryApp
